import Mathlib

/-!
Verification development for the Blood_Connect repository.

The embedding below translates the client-side notification fan-out service
(`NotificationService` in the socket utility module), the notification-center
callbacks (`handleAcceptBloodRequest`), and the profile-settings save handler
(`handleSave` in ProfileSettings.tsx) into Lean.  Mutable class state becomes
an explicit `ServiceState` record threaded through each operation; socket
emissions and listener invocations become explicit output lists; `Date.now()`
becomes an explicit `now : Nat` argument supplied with each inbound event.
-/

namespace BloodConnect

/-- Urgency levels of a blood request (`'critical' | 'high' | 'medium' | 'low'`). -/
inductive Urgency
  | critical
  | high
  | medium
  | low
  deriving DecidableEq, Repr

/-- The string produced by `data.urgency.toUpperCase()` in the
blood_request_match handler. -/
def Urgency.toUpperString : Urgency → String
  | .critical => "CRITICAL"
  | .high => "HIGH"
  | .medium => "MEDIUM"
  | .low => "LOW"

/-- Patient attributes of a blood request (`patientInfo`). -/
structure PatientInfo where
  age : Nat
  gender : String
  condition : String
  deriving DecidableEq, Repr

/-- The `BloodRequest` interface of the notification service module.
`distance: number` is used only inside a message string; it is embedded
as a natural number. -/
structure BloodRequest where
  id : String
  bloodType : String
  urgency : Urgency
  location : String
  distance : Nat
  requiredBy : String
  patientInfo : PatientInfo
  hospitalName : String
  contactInfo : String
  deriving DecidableEq, Repr

/-- Kinds of notification records
(`'blood_request' | 'donation_accepted' | 'request_fulfilled'`). -/
inductive NotifType
  | blood_request
  | donation_accepted
  | request_fulfilled
  deriving DecidableEq, Repr

/-- The fields of the untyped `data` payload that the donation_accepted
handler reads (`data.requestId`, `data.donor.name`). -/
structure AcceptedData where
  requestId : String
  donorName : String
  deriving DecidableEq, Repr

/-- The field of the untyped `data` payload that the request_fulfilled
handler reads (`data.requestId`). -/
structure FulfilledData where
  requestId : String
  deriving DecidableEq, Repr

/-- The opaque `data?: any` payload stored inside a notification record,
closed over the three shapes that actually occur. -/
inductive Payload
  | request (r : BloodRequest)
  | accepted (a : AcceptedData)
  | fulfilled (f : FulfilledData)
  deriving DecidableEq, Repr

/-- The `NotificationData` interface: one notification record. -/
structure NotificationData where
  id : String
  type : NotifType
  title : String
  message : String
  data : Option Payload
  timestamp : Nat
  read : Bool
  deriving DecidableEq, Repr

/-- The authentication payload sent when the socket is opened
(`auth: { userId, userRole, bloodType, location }`). -/
structure SocketAuth where
  userId : String
  userRole : String
  bloodType : String
  location : String
  deriving DecidableEq, Repr

/-- Subscriber callbacks are compared by reference (`l !== callback`);
they are embedded as opaque identities. -/
abbrev Listener := Nat

/-- The mutable fields of the `NotificationService` class:
`socket`, `notifications`, `listeners`. -/
structure ServiceState where
  socket : Option SocketAuth
  notifications : List NotificationData
  listeners : List Listener
  deriving DecidableEq, Repr

/-- One invocation of a subscriber callback with the full notification list
(`listener(this.notifications)`). -/
structure Delivery where
  listener : Listener
  snapshot : List NotificationData
  deriving DecidableEq, Repr

/-- The fields of the `userProfile: any` object that the notification-center
component passes to the service (`id`, `role`, `fullName`, `phoneNumber`,
`bloodType`, `location`). -/
structure UserProfile where
  id : String
  role : String
  fullName : String
  phoneNumber : String
  bloodType : String
  location : String
  deriving DecidableEq, Repr

/-- The `donorInfo` object carried by the outbound donor_response event;
`phone` and `bloodType` are absent in the decline path, hence optional. -/
structure DonorInfo where
  id : String
  name : String
  phone : Option String
  bloodType : Option String
  deriving DecidableEq, Repr

/-- The `'accept' | 'decline'` response of `respondToBloodRequest`. -/
inductive Response
  | accept
  | decline
  deriving DecidableEq, Repr

/-- One outbound `donor_response` emission:
`socket.emit('donor_response', { requestId, response, donorInfo })`. -/
structure OutEvent where
  requestId : String
  response : Response
  donorInfo : DonorInfo
  deriving DecidableEq, Repr

/-- The three inbound push events the service registers handlers for. -/
inductive InEvent
  | blood_request_match (data : BloodRequest)
  | donation_accepted (data : AcceptedData)
  | request_fulfilled (data : FulfilledData)
  deriving DecidableEq, Repr

/-- The notification record each inbound handler constructs; `now` is the
value of `Date.now()` at arrival. -/
def toNotification : InEvent → Nat → NotificationData
  | .blood_request_match d, now =>
    { id := "req_" ++ d.id ++ "_" ++ toString now
      type := .blood_request
      title := "🩸 " ++ d.urgency.toUpperString ++ " Blood Request"
      message := d.bloodType ++ " blood needed at " ++ d.hospitalName
          ++ " (" ++ toString d.distance ++ "km away)"
      data := some (.request d)
      timestamp := now
      read := false }
  | .donation_accepted d, now =>
    { id := "acc_" ++ d.requestId ++ "_" ++ toString now
      type := .donation_accepted
      title := "✅ Donor Found!"
      message := d.donorName ++ " has accepted your blood request"
      data := some (.accepted d)
      timestamp := now
      read := false }
  | .request_fulfilled d, now =>
    { id := "ful_" ++ d.requestId ++ "_" ++ toString now
      type := .request_fulfilled
      title := "🎉 Request Completed"
      message := "Blood request has been successfully fulfilled"
      data := some (.fulfilled d)
      timestamp := now
      read := false }

/-- `notifyListeners`: invoke every subscriber with the current list. -/
def notifyListeners (s : ServiceState) : List Delivery :=
  s.listeners.map (fun l => ⟨l, s.notifications⟩)

/-- `addNotification`: `unshift` the record (prepend) then notify listeners. -/
def addNotification (n : NotificationData) (s : ServiceState) :
    ServiceState × List Delivery :=
  let s1 := { s with notifications := n :: s.notifications }
  (s1, notifyListeners s1)

/-- `connect(userId, userRole, userProfile)`: `if (this.socket) return;`
otherwise open a socket authenticated with identity and attributes.  Handler
registration on the fresh socket is represented by `handleInEvent` acting
only when `socket` is present. -/
def connect (userId userRole : String) (p : UserProfile) (s : ServiceState) :
    ServiceState :=
  if s.socket.isSome then s
  else { s with socket := some ⟨userId, userRole, p.bloodType, p.location⟩ }

/-- Arrival of one inbound push event.  When no socket is open no handlers
are registered, so the event has no effect; when connected, the registered
handler builds the record and calls `addNotification` (the browser and toast
side effects touch no service state). -/
def handleInEvent (e : InEvent) (now : Nat) (s : ServiceState) :
    ServiceState × List Delivery :=
  match s.socket with
  | none => (s, [])
  | some _ => addNotification (toNotification e now) s

/-- The per-record function applied by `markAsRead`:
`n.id === notificationId ? { ...n, read: true } : n`. -/
def setRead (nid : String) (n : NotificationData) : NotificationData :=
  if n.id = nid then { n with read := true } else n

/-- `markAsRead(notificationId)`: rewrite the list via `setRead`, then
notify listeners. -/
def markAsRead (nid : String) (s : ServiceState) :
    ServiceState × List Delivery :=
  let s1 := { s with notifications := s.notifications.map (setRead nid) }
  (s1, notifyListeners s1)

/-- `getNotifications()`: the current snapshot. -/
def getNotifications (s : ServiceState) : List NotificationData :=
  s.notifications

/-- `getUnreadCount()`: `this.notifications.filter(n => !n.read).length`. -/
def getUnreadCount (s : ServiceState) : Nat :=
  (s.notifications.filter (fun n => !n.read)).length

/-- `subscribe(callback)`: push the callback onto the listener list. -/
def subscribe (c : Listener) (s : ServiceState) : ServiceState :=
  { s with listeners := s.listeners ++ [c] }

/-- The unsubscribe closure returned by `subscribe`:
`this.listeners = this.listeners.filter(l => l !== callback)`. -/
def unsubscribe (c : Listener) (s : ServiceState) : ServiceState :=
  { s with listeners := s.listeners.filter (fun l => l != c) }

/-- `respondToBloodRequest(requestId, response, userInfo)`: emit a single
donor_response event if a socket is open, otherwise do nothing. -/
def respondToBloodRequest (requestId : String) (resp : Response)
    (userInfo : DonorInfo) (s : ServiceState) : ServiceState × List OutEvent :=
  match s.socket with
  | some _ => (s, [⟨requestId, resp, userInfo⟩])
  | none => (s, [])

/-- `disconnect()`: if a socket is open, close it and clear the handle.  The
boolean records whether `socket.disconnect()` was actually called. -/
def disconnect (s : ServiceState) : ServiceState × Bool :=
  match s.socket with
  | some _ => ({ s with socket := none }, true)
  | none => (s, false)

/-- `handleAcceptBloodRequest` of the notification-center component: respond
with accept carrying the donor's id, name, phone and blood type. -/
def handleAcceptBloodRequest (userProfile : UserProfile)
    (requestData : BloodRequest) (s : ServiceState) :
    ServiceState × List OutEvent :=
  respondToBloodRequest requestData.id .accept
    { id := userProfile.id
      name := userProfile.fullName
      phone := some userProfile.phoneNumber
      bloodType := some userProfile.bloodType } s

/-- The service operations that can follow an unsubscription without
touching the listener list: event arrival, mark-as-read, donor response,
disconnect. -/
inductive Op
  | inEvent (e : InEvent) (now : Nat)
  | markRead (nid : String)
  | respond (requestId : String) (resp : Response) (info : DonorInfo)
  | close
  deriving DecidableEq, Repr

/-- Apply one operation, collecting the subscriber deliveries it causes. -/
def applyOp : Op → ServiceState → ServiceState × List Delivery
  | .inEvent e now, s => handleInEvent e now s
  | .markRead nid, s => markAsRead nid s
  | .respond rid r i, s => ((respondToBloodRequest rid r i s).1, [])
  | .close, s => ((disconnect s).1, [])

/-- Run a sequence of operations, concatenating all deliveries in order. -/
def runOps : List Op → ServiceState → ServiceState × List Delivery
  | [], s => (s, [])
  | op :: rest, s =>
    let p1 := applyOp op s
    let p2 := runOps rest p1.1
    (p2.1, p1.2 ++ p2.2)

/-- Handle a sequence of inbound push events (each paired with its arrival
time), concatenating all deliveries in order. -/
def processEvents : List (InEvent × Nat) → ServiceState → ServiceState × List Delivery
  | [], s => (s, [])
  | p :: rest, s =>
    let p1 := handleInEvent p.1 p.2 s
    let p2 := processEvents rest p1.1
    (p2.1, p1.2 ++ p2.2)

/-- Modelled from the spec: the fan-out delivery log — after each insertion
(the new record prepended to the accumulated list) every subscriber is
invoked with the full current list.  Used to state C1 against
`processEvents`. -/
def deliveryLog (ls : List Listener) : List (InEvent × Nat) →
    List NotificationData → List Delivery
  | [], _ => []
  | p :: rest, acc =>
    let acc1 := toNotification p.1 p.2 :: acc
    ls.map (fun l => ⟨l, acc1⟩) ++ deliveryLog ls rest acc1

/-- Read-flag monotonicity relation between an old record and its successor:
every field agrees except that the read flag may only go from false to
true. -/
def recordMono (a b : NotificationData) : Prop :=
  b.id = a.id ∧ b.type = a.type ∧ b.title = a.title ∧ b.message = a.message ∧
  b.data = a.data ∧ b.timestamp = a.timestamp ∧ (a.read = true → b.read = true)

/-- Roles of the profile-settings view (`'donor' | 'patient' | 'clinic'`). -/
inductive Role
  | donor
  | patient
  | clinic
  deriving DecidableEq, Repr

/-- The editable draft held by the profile-settings component (`formData`). -/
structure ProfileFormData where
  fullName : String
  phoneNumber : String
  location : String
  bloodType : String
  isAvailable : Bool
  organizationName : String
  organizationType : String
  deriving DecidableEq, Repr

/-- The JavaScript `String.prototype.trim()` operation: remove leading and
trailing whitespace characters.  Embedded directly on the character list so
that it evaluates by kernel reduction on concrete inputs. -/
def jsTrim (s : String) : String :=
  ⟨((s.data.dropWhile Char.isWhitespace).reverse.dropWhile
      Char.isWhitespace).reverse⟩

/-- The update payload built by `handleSave`; role-conditional fields are
optional because the object spreads include them only for the matching
role. -/
structure UpdateData where
  fullName : String
  phoneNumber : String
  location : String
  bloodType : Option String
  isAvailable : Option Bool
  organizationName : Option String
  organizationType : Option String
  deriving DecidableEq, Repr

/-- The `updateData` object literal of `handleSave`: trimmed string fields,
donor fields spread in only for the donor role, organization fields (name
trimmed) only for the clinic role. -/
def buildUpdateData (role : Role) (f : ProfileFormData) : UpdateData :=
  { fullName := jsTrim f.fullName
    phoneNumber := jsTrim f.phoneNumber
    location := jsTrim f.location
    bloodType := if role = .donor then some f.bloodType else none
    isAvailable := if role = .donor then some f.isAvailable else none
    organizationName := if role = .clinic then some (jsTrim f.organizationName) else none
    organizationType := if role = .clinic then some f.organizationType else none }

/-- Observable outcome of one `handleSave` run, starting from edit mode:
the payload passed to `profile.update`, how many update calls were issued,
whether edit mode is still active afterwards, and whether the
caller-supplied `onProfileUpdate` refresh callback was invoked. -/
structure SaveOutcome where
  payload : UpdateData
  updateCalls : Nat
  isEditing : Bool
  refreshCalled : Bool
  deriving DecidableEq, Repr

/-- `handleSave`: build the payload, issue one `profile.update` call whose
result is `updateError` (`none` on success, `some msg` when
`result.error` is set, which is thrown and caught); on success leave edit
mode and invoke the refresh callback, on failure stay in edit mode. -/
def handleSave (role : Role) (f : ProfileFormData) (updateError : Option String) :
    SaveOutcome :=
  let p := buildUpdateData role f
  match updateError with
  | none => { payload := p, updateCalls := 1, isEditing := false, refreshCalled := true }
  | some _ => { payload := p, updateCalls := 1, isEditing := true, refreshCalled := false }

/-- A sample donor profile used by concrete witnesses. -/
def sampleProfile : UserProfile :=
  ⟨"u1", "donor", "Jane Doe", "555-0101", "O-", "Springfield"⟩

/-- A sample blood request used by concrete witnesses. -/
def sampleBR : BloodRequest :=
  ⟨"brq1", "O-", .critical, "Springfield", 3, "2025-01-01",
    ⟨40, "F", "surgery"⟩, "General Hospital", "555-0199"⟩

/-- A sample notification record used by concrete witnesses. -/
def sampleRecord : NotificationData :=
  ⟨"req_brq1_5", .blood_request, "t", "m", none, 5, false⟩

/-- A sample connected service state with two subscribers. -/
def sConn : ServiceState :=
  ⟨some ⟨"u1", "donor", "O-", "Springfield"⟩, [], [1, 2]⟩

/-- A sample disconnected service state holding one unread record and two
subscribers. -/
def sDisc : ServiceState :=
  ⟨none, [sampleRecord], [1, 2]⟩

/-- A sample donor-info payload used by concrete witnesses. -/
def sampleDonorInfo : DonorInfo :=
  ⟨"u1", "Jane Doe", some "555-0101", some "O-"⟩

/-- A sample profile-settings draft whose full name carries surrounding
whitespace. -/
def janeForm : ProfileFormData :=
  ⟨"  Jane Doe  ", " 555-0101 ", " Springfield ", "O-", true, "", ""⟩

theorem setRead_idem (nid : String) (n : NotificationData) :
    setRead nid (setRead nid n) = setRead nid n := by
  unfold setRead
  by_cases h : n.id = nid <;> simp [h]

theorem setRead_of_read (nid : String) (n : NotificationData) (h : n.read = true) :
    setRead nid n = n := by
  unfold setRead
  by_cases hid : n.id = nid
  · cases n
    simp_all
  · simp [hid]

/-- C2: markAsRead is idempotent — applying it twice with the same
identifier yields the same service state as applying it once. -/
theorem markAsRead_idempotent (s : ServiceState) (nid : String) :
    (markAsRead nid (markAsRead nid s).1).1 = (markAsRead nid s).1 := by
  simp only [markAsRead, List.map_map]
  congr 1
  apply List.map_congr_left
  intro n _
  exact setRead_idem nid n

/-- C8: getUnreadCount equals the number of records in the current
snapshot whose read flag is false. -/
theorem getUnreadCount_counts_unread (s : ServiceState) :
    getUnreadCount s
      = ((getNotifications s).filter (fun n => n.read = false)).length := by
  unfold getUnreadCount getNotifications
  congr 1
  apply List.filter_congr
  intro n _
  cases h : n.read <;> simp [h]

/-- C5: connect is idempotent — when a socket is already open, a further
connect call with any arguments leaves the whole service state unchanged. -/
theorem connect_idempotent (s : ServiceState) (u r : String) (p : UserProfile)
    (h : s.socket.isSome) : connect u r p s = s := by
  simp [connect, h]

theorem connect_idempotent_witness :
    sConn.socket.isSome ∧ connect "u9" "patient" sampleProfile sConn = sConn :=
  ⟨by decide, connect_idempotent sConn "u9" "patient" sampleProfile (by decide)⟩

/-- C9: disconnect calls socket close exactly when a socket is open, always
clears the handle (so a following connect opens a fresh authenticated
socket), and never changes the notification list. -/
theorem disconnect_spec (s : ServiceState) (u r : String) (p : UserProfile) :
    (disconnect s).1.socket = none
    ∧ (disconnect s).1.notifications = s.notifications
    ∧ (disconnect s).2 = s.socket.isSome
    ∧ (connect u r p (disconnect s).1).socket
        = some ⟨u, r, p.bloodType, p.location⟩ := by
  cases h : s.socket <;> simp [disconnect, connect, h]

/-- C4: respondToBloodRequest never changes the service state, emits exactly
one donor_response event carrying the given fields when a socket is open and
none otherwise, and the notification-center accept handler emits exactly one
accept response carrying the donor's id, name, phone and blood type. -/
theorem respondToBloodRequest_spec (s : ServiceState) (rid : String)
    (r : Response) (info : DonorInfo) (p : UserProfile) (rd : BloodRequest) :
    (respondToBloodRequest rid r info s).1 = s
    ∧ (s.socket.isSome →
        (respondToBloodRequest rid r info s).2 = [⟨rid, r, info⟩])
    ∧ (s.socket = none → (respondToBloodRequest rid r info s).2 = [])
    ∧ (handleAcceptBloodRequest p rd s).1 = s
    ∧ (s.socket.isSome →
        (handleAcceptBloodRequest p rd s).2
          = [⟨rd.id, Response.accept,
              ⟨p.id, p.fullName, some p.phoneNumber, some p.bloodType⟩⟩]) := by
  cases h : s.socket <;>
    simp [respondToBloodRequest, handleAcceptBloodRequest, h]

theorem respondToBloodRequest_spec_witness :
    (respondToBloodRequest "brq1" Response.accept sampleDonorInfo sConn).2
        = [⟨"brq1", Response.accept, sampleDonorInfo⟩]
    ∧ (respondToBloodRequest "brq1" Response.accept sampleDonorInfo sDisc).2 = [] :=
  ⟨(respondToBloodRequest_spec sConn "brq1" Response.accept sampleDonorInfo
      sampleProfile sampleBR).2.1 (by decide),
   (respondToBloodRequest_spec sDisc "brq1" Response.accept sampleDonorInfo
      sampleProfile sampleBR).2.2.1 (by decide)⟩

/-- C10: every record built by an inbound handler has read = false, so on a
connected service each event arrival raises the unread count by one. -/
theorem inEvent_fresh_unread (e : InEvent) (now : Nat) (s : ServiceState)
    (h : s.socket.isSome) :
    (toNotification e now).read = false
    ∧ getUnreadCount (handleInEvent e now s).1 = getUnreadCount s + 1 := by
  obtain ⟨a, ha⟩ := Option.isSome_iff_exists.mp h
  have hread : (toNotification e now).read = false := by
    cases e <;> rfl
  refine ⟨hread, ?_⟩
  simp [handleInEvent, ha, addNotification, getUnreadCount,
    List.filter_cons, hread]

theorem inEvent_fresh_unread_witness :
    (toNotification (InEvent.request_fulfilled ⟨"brq1"⟩) 7).read = false
    ∧ getUnreadCount (handleInEvent (InEvent.request_fulfilled ⟨"brq1"⟩) 7 sConn).1
        = getUnreadCount sConn + 1 :=
  inEvent_fresh_unread (InEvent.request_fulfilled ⟨"brq1"⟩) 7 sConn (by decide)

theorem handleInEvent_some (e : InEvent) (now : Nat) (s : ServiceState)
    (a : SocketAuth) (ha : s.socket = some a) :
    handleInEvent e now s
      = ({ s with notifications := toNotification e now :: s.notifications },
         s.listeners.map (fun l => ⟨l, toNotification e now :: s.notifications⟩)) := by
  simp [handleInEvent, ha, addNotification, notifyListeners]

/-- C1: on a connected service, a sequence of inbound push events yields a
notification list that is exactly the events' records newest-first in front
of the old list (so its length grows by the number of events), and the
delivery log invokes every subscriber with the full current list after each
insertion. -/
theorem processEvents_spec (evs : List (InEvent × Nat)) (s : ServiceState)
    (h : s.socket.isSome) :
    (processEvents evs s).1.notifications
        = (evs.map (fun p => toNotification p.1 p.2)).reverse ++ s.notifications
    ∧ (processEvents evs s).1.notifications.length
        = evs.length + s.notifications.length
    ∧ (processEvents evs s).2 = deliveryLog s.listeners evs s.notifications := by
  induction evs generalizing s with
  | nil => simp [processEvents, deliveryLog]
  | cons p rest ih =>
    obtain ⟨a, ha⟩ := Option.isSome_iff_exists.mp h
    have hstep := handleInEvent_some p.1 p.2 s a ha
    have h1 : ({ s with
        notifications := toNotification p.1 p.2 :: s.notifications } :
        ServiceState).socket.isSome := by
      simp [ha]
    obtain ⟨ihA, ihB, ihC⟩ := ih _ h1
    refine ⟨?_, ?_, ?_⟩
    · simp only [processEvents, hstep]
      rw [ihA]
      simp
    · simp only [processEvents, hstep]
      rw [ihB]
      simp
      omega
    · simp only [processEvents, hstep]
      rw [ihC]
      simp [deliveryLog]

theorem processEvents_spec_witness :
    (processEvents [(InEvent.blood_request_match sampleBR, 5)] sConn).1.notifications.length
      = [(InEvent.blood_request_match sampleBR, 5)].length
          + sConn.notifications.length :=
  (processEvents_spec [(InEvent.blood_request_match sampleBR, 5)] sConn
    (by decide)).2.1

theorem applyOp_listeners (op : Op) (s : ServiceState) :
    (applyOp op s).1.listeners = s.listeners := by
  cases op with
  | inEvent e now =>
    cases h : s.socket <;> simp [applyOp, handleInEvent, addNotification, h]
  | markRead nid => simp [applyOp, markAsRead]
  | respond rid r i =>
    cases h : s.socket <;> simp [applyOp, respondToBloodRequest, h]
  | close => cases h : s.socket <;> simp [applyOp, disconnect, h]

theorem notifyListeners_listener_mem (s : ServiceState) (d : Delivery)
    (hd : d ∈ notifyListeners s) : d.listener ∈ s.listeners := by
  simp only [notifyListeners, List.mem_map] at hd
  obtain ⟨l, hl, rfl⟩ := hd
  exact hl

theorem applyOp_delivery_listener (op : Op) (s : ServiceState) (d : Delivery)
    (hd : d ∈ (applyOp op s).2) : d.listener ∈ s.listeners := by
  cases op with
  | inEvent e now =>
    cases h : s.socket with
    | none => simp [applyOp, handleInEvent, h] at hd
    | some a =>
      rw [applyOp, handleInEvent_some e now s a h] at hd
      simp only [List.mem_map] at hd
      obtain ⟨l, hl, rfl⟩ := hd
      exact hl
  | markRead nid =>
    simp only [applyOp, markAsRead, notifyListeners, List.mem_map] at hd
    obtain ⟨l, hl, rfl⟩ := hd
    exact hl
  | respond rid r i => simp [applyOp] at hd
  | close => simp [applyOp] at hd

theorem runOps_delivery_listener (ops : List Op) (s : ServiceState)
    (d : Delivery) (hd : d ∈ (runOps ops s).2) : d.listener ∈ s.listeners := by
  induction ops generalizing s with
  | nil => simp [runOps] at hd
  | cons op rest ih =>
    simp only [runOps, List.mem_append] at hd
    cases hd with
    | inl h1 => exact applyOp_delivery_listener op s d h1
    | inr h2 =>
      have hmem := ih (applyOp op s).1 h2
      rwa [applyOp_listeners op s] at hmem

/-- C3: the unsubscribe operation returned for callback c removes exactly c
from the subscriber set (every occurrence of c and nothing else), and every
delivery produced by any later sequence of service operations — event
arrivals, mark-as-read, donor responses, disconnects — goes to a listener
other than c. -/
theorem unsubscribe_spec (s : ServiceState) (c : Listener) :
    (∀ d : Listener, d ∈ (unsubscribe c s).listeners ↔ d ∈ s.listeners ∧ d ≠ c)
    ∧ (∀ (ops : List Op) (dl : Delivery),
        dl ∈ (runOps ops (unsubscribe c s)).2 → dl.listener ≠ c) := by
  constructor
  · intro d
    simp [unsubscribe, List.mem_filter]
  · intro ops dl hdl
    have hm := runOps_delivery_listener ops (unsubscribe c s) dl hdl
    simp [unsubscribe, List.mem_filter] at hm
    exact hm.2

theorem unsubscribe_spec_witness :
    (2 ∈ (unsubscribe 1 sDisc).listeners ↔ 2 ∈ sDisc.listeners ∧ 2 ≠ 1)
    ∧ (Delivery.mk 2 [setRead "req_brq1_5" sampleRecord]).listener ≠ 1 :=
  ⟨(unsubscribe_spec sDisc 1).1 2,
   (unsubscribe_spec sDisc 1).2 [Op.markRead "req_brq1_5"]
     ⟨2, [setRead "req_brq1_5" sampleRecord]⟩ (by decide)⟩

theorem recordMono_refl (n : NotificationData) : recordMono n n :=
  ⟨rfl, rfl, rfl, rfl, rfl, rfl, fun h => h⟩

theorem recordMono_setRead (nid : String) (n : NotificationData) :
    recordMono n (setRead nid n) := by
  unfold setRead
  by_cases h : n.id = nid <;> simp [h, recordMono]

theorem forall₂_recordMono_self (l : List NotificationData) :
    List.Forall₂ recordMono l l := by
  induction l with
  | nil => exact List.Forall₂.nil
  | cons a t ih => exact List.Forall₂.cons (recordMono_refl a) ih

theorem forall₂_recordMono_map_setRead (nid : String)
    (l : List NotificationData) :
    List.Forall₂ recordMono l (l.map (setRead nid)) := by
  induction l with
  | nil => exact List.Forall₂.nil
  | cons a t ih => exact List.Forall₂.cons (recordMono_setRead nid a) ih

/-- C7: every service operation splits the resulting notification list into
freshly created records in front of successors of the old records, where
each successor agrees with its original on every field and its read flag can
only move from false to true — never from true to false. -/
theorem applyOp_read_monotonic (op : Op) (s : ServiceState) :
    ∃ fresh rest, (applyOp op s).1.notifications = fresh ++ rest
      ∧ List.Forall₂ recordMono s.notifications rest := by
  cases op with
  | inEvent e now =>
    cases h : s.socket with
    | none =>
      exact ⟨[], s.notifications, by simp [applyOp, handleInEvent, h],
        forall₂_recordMono_self _⟩
    | some a =>
      refine ⟨[toNotification e now], s.notifications, ?_,
        forall₂_recordMono_self _⟩
      rw [applyOp, handleInEvent_some e now s a h]
      simp
  | markRead nid =>
    exact ⟨[], s.notifications.map (setRead nid), by simp [applyOp, markAsRead],
      forall₂_recordMono_map_setRead nid _⟩
  | respond rid r i =>
    refine ⟨[], s.notifications, ?_, forall₂_recordMono_self _⟩
    cases h : s.socket <;> simp [applyOp, respondToBloodRequest, h]
  | close =>
    refine ⟨[], s.notifications, ?_, forall₂_recordMono_self _⟩
    cases h : s.socket <;> simp [applyOp, disconnect, h]

theorem applyOp_read_monotonic_witness :
    ∃ fresh rest,
      (applyOp (Op.markRead "req_brq1_5") sDisc).1.notifications = fresh ++ rest
      ∧ List.Forall₂ recordMono sDisc.notifications rest :=
  applyOp_read_monotonic (Op.markRead "req_brq1_5") sDisc

/-- C6: handleSave trims the three string fields, includes blood type and
availability exactly when the role is donor and organization name (trimmed)
and type exactly when the role is clinic, issues a single update call, and
on success exits edit mode and invokes the refresh callback while on
failure edit mode stays active. -/
theorem handleSave_spec (role : Role) (f : ProfileFormData)
    (err : Option String) :
    (handleSave role f err).payload.fullName = jsTrim f.fullName
    ∧ (handleSave role f err).payload.phoneNumber = jsTrim f.phoneNumber
    ∧ (handleSave role f err).payload.location = jsTrim f.location
    ∧ (role = .donor →
        (handleSave role f err).payload.bloodType = some f.bloodType
        ∧ (handleSave role f err).payload.isAvailable = some f.isAvailable)
    ∧ (role ≠ .donor →
        (handleSave role f err).payload.bloodType = none
        ∧ (handleSave role f err).payload.isAvailable = none)
    ∧ (role = .clinic →
        (handleSave role f err).payload.organizationName
            = some (jsTrim f.organizationName)
        ∧ (handleSave role f err).payload.organizationType
            = some f.organizationType)
    ∧ (role ≠ .clinic →
        (handleSave role f err).payload.organizationName = none
        ∧ (handleSave role f err).payload.organizationType = none)
    ∧ (handleSave role f err).updateCalls = 1
    ∧ (err = none →
        (handleSave role f err).isEditing = false
        ∧ (handleSave role f err).refreshCalled = true)
    ∧ (err ≠ none →
        (handleSave role f err).isEditing = true
        ∧ (handleSave role f err).refreshCalled = false) := by
  cases role <;> cases err <;> simp [handleSave, buildUpdateData]

theorem handleSave_spec_witness :
    (handleSave Role.donor janeForm none).payload.fullName = "Jane Doe"
    ∧ (handleSave Role.donor janeForm none).isEditing = false
    ∧ (handleSave Role.donor janeForm none).refreshCalled = true
    ∧ (handleSave Role.donor janeForm (some "update failed")).isEditing = true := by
  obtain ⟨h1, -, -, -, -, -, -, -, h9, -⟩ :=
    handleSave_spec Role.donor janeForm none
  obtain ⟨-, -, -, -, -, -, -, -, -, g10⟩ :=
    handleSave_spec Role.donor janeForm (some "update failed")
  obtain ⟨h9a, h9b⟩ := h9 rfl
  obtain ⟨g10a, -⟩ := g10 (by simp)
  refine ⟨?_, h9a, h9b, g10a⟩
  rw [h1]
  decide

end BloodConnect
